import Mathlib

/-!
Verification of the chatbot error-viralization simulation model.

The definitions below are a shallow embedding of the simulation engine
(`modelo.py`): agents (`Usuario`), the responder (`Chatbot`), the
propagation engine, the per-tick driver, and the scenario runner.
Python floats are modelled as rationals, the shared pseudo-random source
as an explicit tape of draws (`Tape`), and in-place object mutation as
functional updates of the agent list addressed by position.
-/

/-- A user/agent of the simulation (`Usuario` dataclass).
Awareness states are the source's strings:
`inactivo` (dormant), `consciente` (aware), `activo` (reporting). -/
structure Usuario where
  id : Nat
  tipo : String
  probabilidad_interaccion : ℚ
  probabilidad_compartir : ℚ
  influencia : ℚ
  estado : String
  tiempo_ultima_interaccion : Nat
  interacciones_totales : Nat
  errores_reportados : Nat
deriving Repr, DecidableEq, Inhabited

/-- The responder system (`Chatbot` dataclass). -/
structure Chatbot where
  capacidad_maxima : Nat
  tiempo_respuesta_base : ℚ
  probabilidad_error : ℚ
  capacidad_actual : Nat
  errores_totales : Nat
  tiempo_respuesta_actual : ℚ
deriving Repr, DecidableEq, Inhabited

/-- One viralization-event record appended by the propagation engine. -/
structure Evento where
  tiempo : Nat
  usuario_origen : Nat
  usuario_afectado : Nat
  tipo_origen : String
deriving Repr, DecidableEq, Inhabited

/-- The per-metric time series (`self.metricas` dict). -/
structure Metricas where
  usuarios_activos : List Nat
  usuarios_conscientes : List Nat
  carga_sistema : List ℚ
  errores_generados : List Nat
  tiempo_respuesta : List ℚ
  percepcion_publica : List ℚ
deriving Repr, DecidableEq, Inhabited

/-- The whole mutable model state (`ModeloViralizacion`). -/
structure ModeloViralizacion where
  num_usuarios : Nat
  tiempo_simulacion : Nat
  tiempo_actual : Nat
  chatbot : Chatbot
  usuarios : List Usuario
  metricas : Metricas
  eventos_viralizacion : List Evento
deriving Repr, DecidableEq, Inhabited

/-- The run's pseudo-random source, as a tape: `flt` models successive
`random.random()` unit draws, `nat` models the successive position choices
made by `random.sample` / `random.choice`. -/
structure Tape where
  flt : Nat → ℚ
  nat : Nat → Nat

/-- `random.uniform a b` from a unit draw `u`: `a + (b - a) * u`. -/
def uniformDraw (a b u : ℚ) : ℚ := a + (b - a) * u

/-- Python `int()` on a real value: truncation toward zero. -/
def pyInt (q : ℚ) : ℤ := if 0 ≤ q then ⌊q⌋ else ⌈q⌉

/-- `Chatbot.actualizar_capacidad`: clamp the load to capacity and
recompute the response time quadratically in the relative load. -/
def Chatbot.actualizar_capacidad (c : Chatbot) (usuarios_activos : Nat) : Chatbot :=
  let capacidad_actual := min usuarios_activos c.capacidad_maxima
  let factor_carga : ℚ := (capacidad_actual : ℚ) / (c.capacidad_maxima : ℚ)
  { c with capacidad_actual := capacidad_actual,
           tiempo_respuesta_actual := c.tiempo_respuesta_base * (1 + factor_carga ^ 2) }

/-- `Chatbot.generar_error`: true iff the draw is below the failure
probability; a pure predicate, it never mutates the chatbot. -/
def Chatbot.generar_error (c : Chatbot) (r : ℚ) : Bool :=
  decide (r < c.probabilidad_error)

/-- Positions of the currently dormant (`inactivo`) agents. -/
def inactivosIdx (us : List Usuario) : List Nat :=
  (List.range us.length).filter (fun i => (us.getD i default).estado == "inactivo")

/-- Positions of the currently aware (`consciente`) agents. -/
def conscientesIdx (us : List Usuario) : List Nat :=
  (List.range us.length).filter (fun i => (us.getD i default).estado == "consciente")

/-- Number of agents in a given awareness state. -/
def contarEstado (us : List Usuario) (e : String) : Nat :=
  (us.filter (fun u => u.estado == e)).length

/-- `random.sample(pool, k)` driven by the tape's position choices:
repeatedly remove a tape-chosen position, collecting `min k pool.length`
distinct elements. -/
def sampleTape (nats : Nat → Nat) : Nat → List Nat → Nat → List Nat × Nat
  | 0, _, ix => ([], ix)
  | _ + 1, [], ix => ([], ix)
  | k + 1, p :: ps, ix =>
      let pool := p :: ps
      let j := nats ix % pool.length
      let r := sampleTape nats k (pool.eraseIdx j) (ix + 1)
      (pool.getD j 0 :: r.1, r.2)

/-- `_simular_interaccion_usuario` for the agent at position `i`: on an
interaction draw, bump the agent's counters; on a further failure draw,
increment the chatbot's failure total and the agent's reported failures,
returning whether a failure was produced. -/
def simular_interaccion (t : Tape) (m : ModeloViralizacion) (i : Nat) (ix : Nat) :
    Bool × ModeloViralizacion × Nat :=
  let u := m.usuarios.getD i default
  if t.flt ix < u.probabilidad_interaccion then
    let u1 := { u with interacciones_totales := u.interacciones_totales + 1,
                       tiempo_ultima_interaccion := m.tiempo_actual }
    if m.chatbot.generar_error (t.flt (ix + 1)) then
      let u2 := { u1 with errores_reportados := u1.errores_reportados + 1 }
      (true,
       { m with usuarios := m.usuarios.set i u2,
                chatbot := { m.chatbot with
                              errores_totales := m.chatbot.errores_totales + 1 } },
       ix + 2)
    else
      (false, { m with usuarios := m.usuarios.set i u1 }, ix + 2)
  else (false, m, ix + 1)

/-- The propagation loop over the selected dormant agents: mark each one
`consciente` and append one viralization event tagged with the reporting
agent's id and archetype. -/
def pasoMarcar (tAct oid : Nat) (otipo : String) (p : List Usuario × List Evento)
    (j : Nat) : List Usuario × List Evento :=
  let u := p.1.getD j default
  (p.1.set j { u with estado := "consciente" },
   p.2 ++ [⟨tAct, oid, u.id, otipo⟩])

def marcarConscientes (tAct oid : Nat) (otipo : String) (sel : List Nat)
    (p : List Usuario × List Evento) : List Usuario × List Evento :=
  sel.foldl (pasoMarcar tAct oid otipo) p

/-- `_simular_propagacion_error`: the reporting agent at position `s`
fans out to `min (int (influencia * compartir * uniform 0.5 1.5))
(number of dormant agents)` dormant agents sampled without replacement,
marking each `consciente` and appending one viralization event each. -/
def simular_propagacion (t : Tape) (m : ModeloViralizacion) (s : Nat) (ix : Nat) :
    ModeloViralizacion × Nat :=
  let ue := m.usuarios.getD s default
  let usuarios_afectados : ℤ :=
    pyInt (ue.influencia * ue.probabilidad_compartir *
           uniformDraw (1 / 2) (3 / 2) (t.flt ix))
  let disponibles := inactivosIdx m.usuarios
  let sp :=
    sampleTape t.nat (min usuarios_afectados.toNat disponibles.length) disponibles (ix + 1)
  let res := marcarConscientes m.tiempo_actual ue.id ue.tipo sp.1
    (m.usuarios, m.eventos_viralizacion)
  ({ m with usuarios := res.1, eventos_viralizacion := res.2 }, sp.2)

/-- `_calcular_percepcion_publica`: perception degrades with the failure
rate per interaction (denominator guarded by `max 1 _`) and with the
relative load, clamped to `[0, 1]`. -/
def calcular_percepcion (m : ModeloViralizacion) : ℚ :=
  let errores_por_usuario : ℚ :=
    (m.chatbot.errores_totales : ℚ) /
      max 1 ((m.usuarios.map (fun u => u.interacciones_totales)).sum : ℚ)
  let carga_relativa : ℚ :=
    (m.chatbot.capacidad_actual : ℚ) / (m.chatbot.capacidad_maxima : ℚ)
  let percepcion := 1 - errores_por_usuario * 10 - carga_relativa * (3 / 10)
  max 0 (min 1 percepcion)

/-- Step 1 of a tick: every agent that was `consciente` at the snapshot
attempts an interaction; a failure triggers propagation and promotes the
agent to `activo`. -/
def pasoInteraccion (t : Tape) (p : ModeloViralizacion × Nat) (i : Nat) :
    ModeloViralizacion × Nat :=
  let r := simular_interaccion t p.1 i p.2
  if r.1 then
    let q := simular_propagacion t r.2.1 i r.2.2
    let u := q.1.usuarios.getD i default
    ({ q.1 with usuarios := q.1.usuarios.set i { u with estado := "activo" } }, q.2)
  else (r.2.1, r.2.2)

def faseInteracciones (t : Tape) (m : ModeloViralizacion) (ix : Nat) :
    ModeloViralizacion × Nat :=
  (conscientesIdx m.usuarios).foldl (pasoInteraccion t) (m, ix)

/-- Step 2 of a tick: each `activo` agent decays back to `consciente`
with probability 0.1, consuming one draw per `activo` agent. -/
def pasoDecaimiento (flt : Nat → ℚ) (p : List Usuario × Nat) (i : Nat) :
    List Usuario × Nat :=
  let u := p.1.getD i default
  if u.estado == "activo" then
    if flt p.2 < (1 / 10 : ℚ) then
      (p.1.set i { u with estado := "consciente" }, p.2 + 1)
    else (p.1, p.2 + 1)
  else (p.1, p.2)

def faseDecaimiento (t : Tape) (m : ModeloViralizacion) (ix : Nat) :
    ModeloViralizacion × Nat :=
  let res := (List.range m.usuarios.length).foldl (pasoDecaimiento t.flt) (m.usuarios, ix)
  ({ m with usuarios := res.1 }, res.2)

/-- The network-effect loop over the dormant agents: each becomes
`consciente` when its fresh draw is below the activation probability,
consuming one draw per dormant agent. -/
def pasoActivacion (flt : Nat → ℚ) (prob : ℚ) (p : List Usuario × Nat) (i : Nat) :
    List Usuario × Nat :=
  if flt p.2 < prob then
    let u := p.1.getD i default
    (p.1.set i { u with estado := "consciente" }, p.2 + 1)
  else (p.1, p.2 + 1)

def activarInactivos (flt : Nat → ℚ) (prob : ℚ) (inactivos : List Nat)
    (p : List Usuario × Nat) : List Usuario × Nat :=
  inactivos.foldl (pasoActivacion flt prob) p

/-- Step 3 of a tick (network effect): each currently dormant agent
becomes `consciente` with probability `min 0.1 (usuarios_activos/1000)`. -/
def faseRed (t : Tape) (m : ModeloViralizacion) (usuarios_activos : Nat) (ix : Nat) :
    ModeloViralizacion × Nat :=
  let inactivos := inactivosIdx m.usuarios
  if inactivos.isEmpty then (m, ix)
  else
    let prob_activacion : ℚ := min (1 / 10) ((usuarios_activos : ℚ) / 1000)
    let res := activarInactivos t.flt prob_activacion inactivos (m.usuarios, ix)
    ({ m with usuarios := res.1 }, res.2)

/-- Metric snapshot appended at the end of every tick. -/
def registrar_metricas (m : ModeloViralizacion) (activos conscientes : Nat) :
    ModeloViralizacion :=
  { m with metricas :=
      { usuarios_activos := m.metricas.usuarios_activos ++ [activos],
        usuarios_conscientes := m.metricas.usuarios_conscientes ++ [conscientes],
        carga_sistema := m.metricas.carga_sistema ++
          [(m.chatbot.capacidad_actual : ℚ) / (m.chatbot.capacidad_maxima : ℚ)],
        errores_generados := m.metricas.errores_generados ++ [m.chatbot.errores_totales],
        tiempo_respuesta := m.metricas.tiempo_respuesta ++ [m.chatbot.tiempo_respuesta_actual],
        percepcion_publica := m.metricas.percepcion_publica ++ [calcular_percepcion m] } }

/-- One iteration of the main loop of `ejecutar_simulacion` at time
`tiempo`: snapshot the `activo`/`consciente` counts, update the load,
run the three phases in order (the network phase only when
`tiempo > 0 ∧ tiempo % 5 = 0`), then record metrics. -/
def paso_tiempo (t : Tape) (tiempo : Nat) (m : ModeloViralizacion) (ix : Nat) :
    ModeloViralizacion × Nat :=
  let m0 := { m with tiempo_actual := tiempo }
  let usuarios_activos := contarEstado m0.usuarios "activo"
  let usuarios_conscientes := contarEstado m0.usuarios "consciente"
  let m1 := { m0 with chatbot := m0.chatbot.actualizar_capacidad usuarios_activos }
  let p2 := faseInteracciones t m1 ix
  let p3 := faseDecaimiento t p2.1 p2.2
  let p4 := if 0 < tiempo ∧ tiempo % 5 = 0 then faseRed t p3.1 usuarios_activos p3.2
            else p3
  (registrar_metricas p4.1 usuarios_activos usuarios_conscientes, p4.2)

/-- The main `for tiempo in range(...)` loop, `k` ticks starting at time
`tiempo`. -/
def correr_pasos (t : Tape) : Nat → Nat → ModeloViralizacion → Nat →
    ModeloViralizacion × Nat
  | 0, _, m, ix => (m, ix)
  | k + 1, tiempo, m, ix =>
      let p := paso_tiempo t tiempo m ix
      correr_pasos t k (tiempo + 1) p.1 p.2

/-- `ejecutar_simulacion`: seed up to 10 random agents `consciente`,
attempt one seeding interaction on a random one of them (possibly
triggering an initial propagation), then run the tick loop.  Nothing is
cleared: metrics, events, counters and states accumulate on whatever the
model already holds. -/
def ejecutar_simulacion (t : Tape) (m : ModeloViralizacion) (ix : Nat) :
    ModeloViralizacion × Nat :=
  let n := m.usuarios.length
  let s0 := sampleTape t.nat (min 10 n) (List.range n) ix
  let inic := s0.1
  let us1 := inic.foldl
    (fun us i => us.set i { us.getD i default with estado := "consciente" }) m.usuarios
  let m1 := { m with usuarios := us1 }
  let p2 :=
    if inic.isEmpty then (m1, s0.2)
    else
      let j := inic.getD (t.nat s0.2 % inic.length) 0
      let r := simular_interaccion t m1 j (s0.2 + 1)
      if r.1 then
        let q := simular_propagacion t r.2.1 j r.2.2
        let u := q.1.usuarios.getD j default
        ({ q.1 with usuarios := q.1.usuarios.set j { u with estado := "activo" } }, q.2)
      else (r.2.1, r.2.2)
  correr_pasos t p2.1.tiempo_simulacion 0 p2.1 p2.2

/-- `_resetear_simulacion`: zero the run state but keep every agent's
behavioral parameters, in particular `influencia`. -/
def resetear (m : ModeloViralizacion) : ModeloViralizacion :=
  { m with tiempo_actual := 0,
           chatbot := { m.chatbot with capacidad_actual := 0, errores_totales := 0,
                                       tiempo_respuesta_actual := 0 },
           usuarios := m.usuarios.map (fun u =>
             { u with estado := "inactivo", tiempo_ultima_interaccion := 0,
                      interacciones_totales := 0, errores_reportados := 0 }),
           metricas := ⟨[], [], [], [], [], []⟩,
           eventos_viralizacion := [] }

/-- Scenario configuration step: overwrite the failure probability and
multiply every agent's influence. -/
def configurar (m : ModeloViralizacion) (prob_error influencia_mult : ℚ) :
    ModeloViralizacion :=
  { m with chatbot := { m.chatbot with probabilidad_error := prob_error },
           usuarios := m.usuarios.map (fun u =>
             { u with influencia := u.influencia * influencia_mult }) }

/-- Per-scenario summary statistics saved by `analizar_escenarios`. -/
structure Resumen where
  max_usuarios_activos : Nat
  max_carga : ℚ
  errores_finales : Nat
  percepcion_final : ℚ
deriving Repr, DecidableEq, Inhabited

/-- Summary of the metric series currently held by the model. -/
def resumen (m : ModeloViralizacion) : Resumen :=
  { max_usuarios_activos := m.metricas.usuarios_activos.foldl max 0,
    max_carga := m.metricas.carga_sistema.foldl max 0,
    errores_finales := m.metricas.errores_generados.getLastD 0,
    percepcion_final := m.metricas.percepcion_publica.getLastD 0 }

/-- `analizar_escenarios` over an arbitrary scenario list (failure
probability, influence multiplier), in order: configure, run, summarize,
and only then reset. -/
def analizar_escenarios_con (t : Tape) :
    List (ℚ × ℚ) → ModeloViralizacion → Nat →
    ModeloViralizacion × Nat × List Resumen
  | [], m, ix => (m, ix, [])
  | cfg :: cfgs, m, ix =>
      let m1 := configurar m cfg.1 cfg.2
      let p := ejecutar_simulacion t m1 ix
      let r := resumen p.1
      let m3 := resetear p.1
      let q := analizar_escenarios_con t cfgs m3 p.2
      (q.1, q.2.1, r :: q.2.2)

/-- The four concrete scenarios of `analizar_escenarios`, in insertion
order. -/
def escenarios : List (ℚ × ℚ) :=
  [(5 / 1000, 1 / 2), (1 / 100, 1), (2 / 100, 2), (5 / 100, 5)]

/-- `analizar_escenarios` as in the source. -/
def analizar_escenarios (t : Tape) (m : ModeloViralizacion) (ix : Nat) :
    ModeloViralizacion × Nat × List Resumen :=
  analizar_escenarios_con t escenarios m ix

/-- `_crear_usuarios` body for a single agent with id `i`: one archetype
draw partitioned at 0.8 / 0.95, then three archetype-specific uniform
draws for the behavioral parameters. -/
def crear_usuario (t : Tape) (i : Nat) (ix : Nat) : Usuario × Nat :=
  let tipo_rand := t.flt ix
  if tipo_rand < (8 / 10 : ℚ) then
    (⟨i, "normal",
       uniformDraw (1 / 10) (3 / 10) (t.flt (ix + 1)),
       uniformDraw (1 / 20) (3 / 20) (t.flt (ix + 2)),
       uniformDraw 1 2 (t.flt (ix + 3)), "inactivo", 0, 0, 0⟩, ix + 4)
  else if tipo_rand < (19 / 20 : ℚ) then
    (⟨i, "critico",
       uniformDraw (2 / 5) (7 / 10) (t.flt (ix + 1)),
       uniformDraw (3 / 10) (3 / 5) (t.flt (ix + 2)),
       uniformDraw 3 8 (t.flt (ix + 3)), "inactivo", 0, 0, 0⟩, ix + 4)
  else
    (⟨i, "influencer",
       uniformDraw (1 / 5) (1 / 2) (t.flt (ix + 1)),
       uniformDraw (3 / 5) (9 / 10) (t.flt (ix + 2)),
       uniformDraw 10 50 (t.flt (ix + 3)), "inactivo", 0, 0, 0⟩, ix + 4)

/-- `_crear_usuarios`: `k` agents with consecutive ids starting at `i`. -/
def crear_usuarios (t : Tape) : Nat → Nat → Nat → List Usuario × Nat
  | 0, _, ix => ([], ix)
  | k + 1, i, ix =>
      let p := crear_usuario t i ix
      let q := crear_usuarios t k (i + 1) p.2
      (p.1 :: q.1, q.2)

/-- `ModeloViralizacion.__init__`: builds the chatbot (base response
time 1.0, default failure probability 0.01), the population, empty
metric series and an empty event log.  The constructor performs no
validation of its arguments. -/
def ModeloViralizacion.init (t : Tape) (num_usuarios capacidad_chatbot tiempo_simulacion : Nat)
    (ix : Nat) : ModeloViralizacion × Nat :=
  let p := crear_usuarios t num_usuarios 0 ix
  (⟨num_usuarios, tiempo_simulacion, 0,
    ⟨capacidad_chatbot, 1, 1 / 100, 0, 0, 0⟩,
    p.1, ⟨[], [], [], [], [], []⟩, []⟩, p.2)

/-! ## Generic list access lemmas -/

lemma getD_set_self {α : Type} (l : List α) (i : Nat) (v d : α)
    (h : i < l.length) : (l.set i v).getD i d = v := by
  simp [List.getD_eq_getElem?_getD, List.getElem?_set_self h]

lemma getD_set_ne {α : Type} (l : List α) (i j : Nat) (v d : α)
    (h : i ≠ j) : (l.set i v).getD j d = l.getD j d := by
  simp [List.getD_eq_getElem?_getD, List.getElem?_set_ne h]

lemma getD_eq_getElem {α : Type} (l : List α) (i : Nat) (d : α)
    (h : i < l.length) : l.getD i d = l[i] := by
  simp [List.getD_eq_getElem?_getD, List.getElem?_eq_getElem h]

lemma getD_map_lt {α β : Type} (f : α → β) (l : List α)
    (i : Nat) (d : α) (d' : β) (h : i < l.length) :
    (l.map f).getD i d' = f (l.getD i d) := by
  have h' : i < (l.map f).length := by simpa using h
  rw [getD_eq_getElem _ _ _ h', getD_eq_getElem _ _ _ h]
  simp

lemma getD_map_ge {α β : Type} (f : α → β) (l : List α)
    (i : Nat) (d' : β) (h : l.length ≤ i) :
    (l.map f).getD i d' = d' := by
  simp [List.getD_eq_getElem?_getD, List.getElem?_eq_none, h]

/-! ## Lemmas about the sampling model -/

lemma sampleTape_length (nats : Nat → Nat) :
    ∀ (k : Nat) (pool : List Nat) (ix : Nat),
      (sampleTape nats k pool ix).1.length = min k pool.length := by
  intro k
  induction k with
  | zero => intro pool ix; simp [sampleTape]
  | succ k ih =>
      intro pool ix
      cases pool with
      | nil => simp [sampleTape]
      | cons p ps =>
          have hj : nats ix % (p :: ps).length < (p :: ps).length :=
            Nat.mod_lt _ (by simp)
          have h1 : (sampleTape nats (k + 1) (p :: ps) ix).1.length
              = (sampleTape nats k ((p :: ps).eraseIdx (nats ix % (p :: ps).length))
                  (ix + 1)).1.length + 1 := rfl
          rw [h1, ih, List.length_eraseIdx_of_lt hj]
          simp only [List.length_cons]
          omega

lemma sampleTape_subset (nats : Nat → Nat) :
    ∀ (k : Nat) (pool : List Nat) (ix : Nat) (x : Nat),
      x ∈ (sampleTape nats k pool ix).1 → x ∈ pool := by
  intro k
  induction k with
  | zero => intro pool ix x hx; simp [sampleTape] at hx
  | succ k ih =>
      intro pool ix x hx
      cases pool with
      | nil => simp [sampleTape] at hx
      | cons p ps =>
          have hj : nats ix % (p :: ps).length < (p :: ps).length :=
            Nat.mod_lt _ (by simp)
          have h1 : (sampleTape nats (k + 1) (p :: ps) ix).1
              = (p :: ps).getD (nats ix % (p :: ps).length) 0 ::
                (sampleTape nats k ((p :: ps).eraseIdx (nats ix % (p :: ps).length))
                  (ix + 1)).1 := rfl
          rw [h1, List.mem_cons] at hx
          rcases hx with hx | hx
          · rw [hx, getD_eq_getElem _ _ _ hj]
            exact List.getElem_mem hj
          · exact List.eraseIdx_subset _ _ (ih _ _ _ hx)

lemma getD_not_mem_eraseIdx :
    ∀ (l : List Nat) (j : Nat), l.Nodup → j < l.length → l.getD j 0 ∉ l.eraseIdx j := by
  intro l
  induction l with
  | nil => intro j _ h; simp at h
  | cons a as ih =>
      intro j hnd hj
      cases j with
      | zero =>
          simpa using (List.nodup_cons.mp hnd).1
      | succ j =>
          have hj' : j < as.length := by simpa using hj
          have h1 : as.getD j 0 ∈ as := by
            rw [getD_eq_getElem _ _ _ hj']; exact List.getElem_mem hj'
          have h2 : as.getD j 0 ∉ as.eraseIdx j :=
            ih j (List.nodup_cons.mp hnd).2 hj'
          simp only [List.getD_cons_succ, List.eraseIdx_cons_succ, List.mem_cons]
          rintro (h | h)
          · exact (List.nodup_cons.mp hnd).1 (h ▸ h1)
          · exact h2 h

lemma sampleTape_nodup (nats : Nat → Nat) :
    ∀ (k : Nat) (pool : List Nat) (ix : Nat), pool.Nodup →
      (sampleTape nats k pool ix).1.Nodup := by
  intro k
  induction k with
  | zero => intro pool ix _; simp [sampleTape]
  | succ k ih =>
      intro pool ix hnd
      cases pool with
      | nil => simp [sampleTape]
      | cons p ps =>
          have hj : nats ix % (p :: ps).length < (p :: ps).length :=
            Nat.mod_lt _ (by simp)
          have hrest : ((p :: ps).eraseIdx (nats ix % (p :: ps).length)).Nodup :=
            (List.eraseIdx_sublist _ _).nodup hnd
          have h1 : (sampleTape nats (k + 1) (p :: ps) ix).1
              = (p :: ps).getD (nats ix % (p :: ps).length) 0 ::
                (sampleTape nats k ((p :: ps).eraseIdx (nats ix % (p :: ps).length))
                  (ix + 1)).1 := rfl
          rw [h1, List.nodup_cons]
          refine ⟨fun hmem => ?_, ih _ _ hrest⟩
          exact getD_not_mem_eraseIdx _ _ hnd hj (sampleTape_subset nats _ _ _ _ hmem)

/-! ## Positions of dormant agents -/

lemma inactivosIdx_nodup (us : List Usuario) : (inactivosIdx us).Nodup :=
  (List.nodup_range _).filter _

lemma mem_inactivosIdx {us : List Usuario} {j : Nat} (h : j ∈ inactivosIdx us) :
    j < us.length ∧ (us.getD j default).estado = "inactivo" := by
  unfold inactivosIdx at h
  have h1 := List.mem_filter.mp h
  refine ⟨List.mem_range.mp h1.1, ?_⟩
  simpa using h1.2

/-! ## Characterization of the propagation marking loop -/

lemma marcarConscientes_spec (tAct oid : Nat) (otipo : String) :
    ∀ (sel : List Nat) (us : List Usuario) (ev : List Evento),
      sel.Nodup → (∀ j ∈ sel, j < us.length) →
      ((marcarConscientes tAct oid otipo sel (us, ev)).1.length = us.length) ∧
      (∀ j, (marcarConscientes tAct oid otipo sel (us, ev)).1.getD j default =
        if j ∈ sel then { us.getD j default with estado := "consciente" }
        else us.getD j default) ∧
      ((marcarConscientes tAct oid otipo sel (us, ev)).2 =
        ev ++ sel.map (fun j => ⟨tAct, oid, (us.getD j default).id, otipo⟩)) := by
  intro sel
  induction sel with
  | nil =>
      intro us ev _ _
      refine ⟨rfl, fun j => by simp [marcarConscientes], by simp [marcarConscientes]⟩
  | cons h rest ih =>
      intro us ev hnd hb
      have hh : h < us.length := hb h (List.mem_cons_self h rest)
      have hhr : h ∉ rest := (List.nodup_cons.mp hnd).1
      have hndr : rest.Nodup := (List.nodup_cons.mp hnd).2
      set uh : Usuario := { us.getD h default with estado := "consciente" } with huh
      set eh : Evento := ⟨tAct, oid, (us.getD h default).id, otipo⟩ with heh
      have hstep : marcarConscientes tAct oid otipo (h :: rest) (us, ev)
          = marcarConscientes tAct oid otipo rest (us.set h uh, ev ++ [eh]) := rfl
      have hbr : ∀ j ∈ rest, j < (us.set h uh).length := by
        intro j hj; simpa using hb j (List.mem_cons_of_mem h hj)
      obtain ⟨ihl, ihp, ihe⟩ := ih (us.set h uh) (ev ++ [eh]) hndr hbr
      rw [hstep]
      refine ⟨by rw [ihl]; simp, ?_, ?_⟩
      · intro j
        by_cases hj : j = h
        · subst hj
          rw [ihp j, if_neg hhr, if_pos (List.mem_cons_self j rest),
              getD_set_self _ _ _ _ hh]
        · rw [ihp j, getD_set_ne _ _ _ _ _ (fun he => hj he.symm)]
          by_cases hjr : j ∈ rest
          · rw [if_pos hjr, if_pos (List.mem_cons_of_mem h hjr)]
          · rw [if_neg hjr, if_neg (by simp [hj, hjr])]
      · rw [ihe]
        have hmc : rest.map (fun j => (⟨tAct, oid, ((us.set h uh).getD j default).id,
              otipo⟩ : Evento))
            = rest.map (fun j => (⟨tAct, oid, (us.getD j default).id, otipo⟩ : Evento)) := by
          apply List.map_congr_left
          intro j hj
          rw [getD_set_ne _ _ _ _ _ (fun he => hhr (by rwa [he]))]
        rw [hmc]
        simp [heh]

/-! ## Characterization of the network-effect loop -/

lemma activarInactivos_spec (flt : Nat → ℚ) (prob : ℚ) :
    ∀ (L : List Nat) (us : List Usuario) (ix : Nat),
      L.Nodup → (∀ i ∈ L, i < us.length) →
      ((activarInactivos flt prob L (us, ix)).2 = ix + L.length) ∧
      ((activarInactivos flt prob L (us, ix)).1.length = us.length) ∧
      (∀ j, (activarInactivos flt prob L (us, ix)).1.getD j default =
        if j ∈ L ∧ flt (ix + List.indexOf j L) < prob
        then { us.getD j default with estado := "consciente" }
        else us.getD j default) := by
  intro L
  induction L with
  | nil =>
      intro us ix _ _
      refine ⟨by simp [activarInactivos], rfl, fun j => by simp [activarInactivos]⟩
  | cons i0 rest ih =>
      intro us ix hnd hb
      have hi0 : i0 < us.length := hb i0 (List.mem_cons_self i0 rest)
      have hir : i0 ∉ rest := (List.nodup_cons.mp hnd).1
      have hndr : rest.Nodup := (List.nodup_cons.mp hnd).2
      set u0 : Usuario := { us.getD i0 default with estado := "consciente" } with hu0
      by_cases hdraw : flt ix < prob
      · have hstep : activarInactivos flt prob (i0 :: rest) (us, ix)
            = activarInactivos flt prob rest (us.set i0 u0, ix + 1) := by
          simp only [activarInactivos, List.foldl_cons, pasoActivacion, if_pos hdraw]
        have hbr : ∀ j ∈ rest, j < (us.set i0 u0).length := by
          intro j hj; simpa using hb j (List.mem_cons_of_mem i0 hj)
        obtain ⟨ihix, ihl, ihp⟩ := ih (us.set i0 u0) (ix + 1) hndr hbr
        rw [hstep]
        refine ⟨by rw [ihix]; simp; omega, by rw [ihl]; simp, ?_⟩
        intro j
        by_cases hj : j = i0
        · subst hj
          rw [ihp j, if_neg (by simp [hir]), if_pos
              ⟨List.mem_cons_self j rest, by rwa [List.indexOf_cons_self, Nat.add_zero]⟩,
              getD_set_self _ _ _ _ hi0]
        · rw [ihp j, getD_set_ne _ _ _ _ _ (fun he => hj he.symm)]
          have hidx : List.indexOf j (i0 :: rest) = List.indexOf j rest + 1 :=
            List.indexOf_cons_ne rest (fun he => hj he.symm)
          by_cases hjr : j ∈ rest ∧ flt (ix + 1 + List.indexOf j rest) < prob
          · rw [if_pos hjr, if_pos ⟨List.mem_cons_of_mem i0 hjr.1, by
              rw [hidx]
              have : ix + (List.indexOf j rest + 1) = ix + 1 + List.indexOf j rest := by omega
              rw [this]; exact hjr.2⟩]
          · rw [if_neg hjr, if_neg (by
              rintro ⟨hmem, hlt⟩
              rcases List.mem_cons.mp hmem with he | hmem'
              · exact hj he
              · refine hjr ⟨hmem', ?_⟩
                rw [hidx] at hlt
                have : ix + (List.indexOf j rest + 1) = ix + 1 + List.indexOf j rest := by
                  omega
                rwa [this] at hlt)]
      · have hstep : activarInactivos flt prob (i0 :: rest) (us, ix)
            = activarInactivos flt prob rest (us, ix + 1) := by
          simp only [activarInactivos, List.foldl_cons, pasoActivacion, if_neg hdraw]
        have hbr : ∀ j ∈ rest, j < us.length := fun j hj =>
          hb j (List.mem_cons_of_mem i0 hj)
        obtain ⟨ihix, ihl, ihp⟩ := ih us (ix + 1) hndr hbr
        rw [hstep]
        refine ⟨by rw [ihix]; simp; omega, ihl, ?_⟩
        intro j
        by_cases hj : j = i0
        · subst hj
          rw [ihp j, if_neg (by simp [hir]), if_neg (by
            rintro ⟨_, hlt⟩
            rw [List.indexOf_cons_self, Nat.add_zero] at hlt
            exact hdraw hlt)]
        · rw [ihp j]
          have hidx : List.indexOf j (i0 :: rest) = List.indexOf j rest + 1 :=
            List.indexOf_cons_ne rest (fun he => hj he.symm)
          by_cases hjr : j ∈ rest ∧ flt (ix + 1 + List.indexOf j rest) < prob
          · rw [if_pos hjr, if_pos ⟨List.mem_cons_of_mem i0 hjr.1, by
              rw [hidx]
              have : ix + (List.indexOf j rest + 1) = ix + 1 + List.indexOf j rest := by omega
              rw [this]; exact hjr.2⟩]
          · rw [if_neg hjr, if_neg (by
              rintro ⟨hmem, hlt⟩
              rcases List.mem_cons.mp hmem with he | hmem'
              · exact hj he
              · refine hjr ⟨hmem', ?_⟩
                rw [hidx] at hlt
                have : ix + (List.indexOf j rest + 1) = ix + 1 + List.indexOf j rest := by
                  omega
                rwa [this] at hlt)]

/-! ## The advancing-state relation

Every step of a run only promotes awareness (never back to `inactivo`),
never changes an agent's identity or behavioral parameters, and never
decreases the failure total. -/

def UsuarioAvanza (u v : Usuario) : Prop :=
  (v.estado = u.estado ∨ v.estado = "consciente" ∨ v.estado = "activo") ∧
  v.id = u.id ∧ v.tipo = u.tipo ∧
  v.probabilidad_interaccion = u.probabilidad_interaccion ∧
  v.probabilidad_compartir = u.probabilidad_compartir ∧
  v.influencia = u.influencia

lemma usuarioAvanza_refl (u : Usuario) : UsuarioAvanza u u :=
  ⟨Or.inl rfl, rfl, rfl, rfl, rfl, rfl⟩

lemma usuarioAvanza_trans {u v w : Usuario}
    (h1 : UsuarioAvanza u v) (h2 : UsuarioAvanza v w) : UsuarioAvanza u w := by
  obtain ⟨e1, i1, t1, p1, q1, f1⟩ := h1
  obtain ⟨e2, i2, t2, p2, q2, f2⟩ := h2
  refine ⟨?_, i2.trans i1, t2.trans t1, p2.trans p1, q2.trans q1, f2.trans f1⟩
  rcases e2 with e2 | e2 | e2
  · rw [e2]; exact e1
  · exact Or.inr (Or.inl e2)
  · exact Or.inr (Or.inr e2)

lemma usuarioAvanza_consciente (u : Usuario) :
    UsuarioAvanza u { u with estado := "consciente" } :=
  ⟨Or.inr (Or.inl rfl), rfl, rfl, rfl, rfl, rfl⟩

lemma usuarioAvanza_activo (u : Usuario) :
    UsuarioAvanza u { u with estado := "activo" } :=
  ⟨Or.inr (Or.inr rfl), rfl, rfl, rfl, rfl, rfl⟩

lemma usuarioAvanza_contadores (u : Usuario) (tu ti te : Nat) :
    UsuarioAvanza u
      { u with
          tiempo_ultima_interaccion := tu,
          interacciones_totales := ti,
          errores_reportados := te } :=
  ⟨Or.inl rfl, rfl, rfl, rfl, rfl, rfl⟩

def Avanza (m m' : ModeloViralizacion) : Prop :=
  m'.usuarios.length = m.usuarios.length ∧
  (∀ i, UsuarioAvanza (m.usuarios.getD i default) (m'.usuarios.getD i default)) ∧
  m.chatbot.errores_totales ≤ m'.chatbot.errores_totales

lemma avanza_refl (m : ModeloViralizacion) : Avanza m m :=
  ⟨rfl, fun _ => usuarioAvanza_refl _, Nat.le_refl _⟩

lemma avanza_trans {m1 m2 m3 : ModeloViralizacion}
    (h1 : Avanza m1 m2) (h2 : Avanza m2 m3) : Avanza m1 m3 :=
  ⟨h2.1.trans h1.1, fun i => usuarioAvanza_trans (h1.2.1 i) (h2.2.1 i),
   h1.2.2.trans h2.2.2⟩

lemma usuarioAvanza_set {us : List Usuario} {i : Nat} {v : Usuario}
    (h : UsuarioAvanza (us.getD i default) v) :
    ∀ j, UsuarioAvanza (us.getD j default) ((us.set i v).getD j default) := by
  intro j
  by_cases hi : i < us.length
  · by_cases hij : i = j
    · subst hij
      rw [getD_set_self _ _ _ _ hi]
      exact h
    · rw [getD_set_ne _ _ _ _ _ hij]
      exact usuarioAvanza_refl _
  · rw [List.set_eq_of_length_le (Nat.le_of_not_lt hi)]
    exact usuarioAvanza_refl _

/-- Generic promotion lemma for the agent-list folds. -/
lemma usuarios_foldl_avanza {α β : Type}
    (f : List Usuario × β → α → List Usuario × β)
    (hf : ∀ p a, (f p a).1.length = p.1.length ∧
      ∀ j, UsuarioAvanza (p.1.getD j default) ((f p a).1.getD j default)) :
    ∀ (L : List α) (p : List Usuario × β),
      (L.foldl f p).1.length = p.1.length ∧
      ∀ j, UsuarioAvanza (p.1.getD j default) ((L.foldl f p).1.getD j default) := by
  intro L
  induction L with
  | nil => intro p; exact ⟨rfl, fun _ => usuarioAvanza_refl _⟩
  | cons a L ih =>
      intro p
      rw [List.foldl_cons]
      obtain ⟨hl, hp⟩ := ih (f p a)
      exact ⟨hl.trans (hf p a).1, fun j => usuarioAvanza_trans ((hf p a).2 j) (hp j)⟩

/-- Generic promotion lemma for the model-level folds. -/
lemma modelo_foldl_avanza {α : Type}
    (f : ModeloViralizacion × Nat → α → ModeloViralizacion × Nat)
    (hf : ∀ p a, Avanza p.1 (f p a).1) :
    ∀ (L : List α) (p : ModeloViralizacion × Nat), Avanza p.1 (L.foldl f p).1 := by
  intro L
  induction L with
  | nil => intro p; exact avanza_refl _
  | cons a L ih =>
      intro p
      rw [List.foldl_cons]
      exact avanza_trans (hf p a) (ih (f p a))

/-! ## Phase lemmas: every stage of a run advances the state -/

lemma avanza_interaccion (t : Tape) (m : ModeloViralizacion) (i ix : Nat) :
    Avanza m (simular_interaccion t m i ix).2.1 := by
  simp only [simular_interaccion]
  split_ifs with h1 h2
  · refine ⟨by simp, fun j => ?_, Nat.le_succ _⟩
    exact usuarioAvanza_set (usuarioAvanza_contadores (m.usuarios.getD i default)
      m.tiempo_actual ((m.usuarios.getD i default).interacciones_totales + 1)
      ((m.usuarios.getD i default).errores_reportados + 1)) j
  · refine ⟨by simp, fun j => ?_, Nat.le_refl _⟩
    exact usuarioAvanza_set (usuarioAvanza_contadores (m.usuarios.getD i default)
      m.tiempo_actual ((m.usuarios.getD i default).interacciones_totales + 1)
      (m.usuarios.getD i default).errores_reportados) j
  · exact avanza_refl m

lemma pasoMarcar_avanza (tAct oid : Nat) (otipo : String) :
    ∀ (p : List Usuario × List Evento) (a : Nat),
      (pasoMarcar tAct oid otipo p a).1.length = p.1.length ∧
      ∀ j, UsuarioAvanza (p.1.getD j default)
        ((pasoMarcar tAct oid otipo p a).1.getD j default) := by
  intro p a
  refine ⟨by simp [pasoMarcar], fun j => ?_⟩
  exact usuarioAvanza_set (usuarioAvanza_consciente (p.1.getD a default)) j

lemma avanza_propagacion (t : Tape) (m : ModeloViralizacion) (s ix : Nat) :
    Avanza m (simular_propagacion t m s ix).1 := by
  simp only [simular_propagacion, marcarConscientes]
  have h := usuarios_foldl_avanza _
    (pasoMarcar_avanza m.tiempo_actual (m.usuarios.getD s default).id
      (m.usuarios.getD s default).tipo)
    (sampleTape t.nat
      ((pyInt ((m.usuarios.getD s default).influencia *
        (m.usuarios.getD s default).probabilidad_compartir *
        uniformDraw (1 / 2) (3 / 2) (t.flt ix))).toNat
        ⊓ (inactivosIdx m.usuarios).length)
      (inactivosIdx m.usuarios) (ix + 1)).1
    (m.usuarios, m.eventos_viralizacion)
  exact ⟨h.1, h.2, Nat.le_refl _⟩

lemma pasoDecaimiento_avanza (flt : Nat → ℚ) :
    ∀ (p : List Usuario × Nat) (a : Nat),
      (pasoDecaimiento flt p a).1.length = p.1.length ∧
      ∀ j, UsuarioAvanza (p.1.getD j default)
        ((pasoDecaimiento flt p a).1.getD j default) := by
  intro p a
  simp only [pasoDecaimiento]
  split_ifs with h1 h2
  · exact ⟨by simp, fun j =>
      usuarioAvanza_set (usuarioAvanza_consciente (p.1.getD a default)) j⟩
  · exact ⟨rfl, fun _ => usuarioAvanza_refl _⟩
  · exact ⟨rfl, fun _ => usuarioAvanza_refl _⟩

lemma avanza_decaimiento (t : Tape) (m : ModeloViralizacion) (ix : Nat) :
    Avanza m (faseDecaimiento t m ix).1 := by
  simp only [faseDecaimiento]
  have h := usuarios_foldl_avanza _ (pasoDecaimiento_avanza t.flt)
    (List.range m.usuarios.length) (m.usuarios, ix)
  exact ⟨h.1, h.2, Nat.le_refl _⟩

lemma pasoActivacion_avanza (flt : Nat → ℚ) (prob : ℚ) :
    ∀ (p : List Usuario × Nat) (a : Nat),
      (pasoActivacion flt prob p a).1.length = p.1.length ∧
      ∀ j, UsuarioAvanza (p.1.getD j default)
        ((pasoActivacion flt prob p a).1.getD j default) := by
  intro p a
  simp only [pasoActivacion]
  split_ifs with h1
  · exact ⟨by simp, fun j =>
      usuarioAvanza_set (usuarioAvanza_consciente (p.1.getD a default)) j⟩
  · exact ⟨rfl, fun _ => usuarioAvanza_refl _⟩

lemma avanza_red (t : Tape) (m : ModeloViralizacion) (k ix : Nat) :
    Avanza m (faseRed t m k ix).1 := by
  simp only [faseRed, activarInactivos]
  split
  · exact avanza_refl m
  · have h := usuarios_foldl_avanza _
      (pasoActivacion_avanza t.flt (min (1 / 10 : ℚ) ((k : ℚ) / 1000)))
      (inactivosIdx m.usuarios) (m.usuarios, ix)
    exact ⟨h.1, h.2, Nat.le_refl _⟩

lemma avanza_set_activo (m : ModeloViralizacion) (i : Nat) :
    Avanza m { m with usuarios := m.usuarios.set i { m.usuarios.getD i default with estado := "activo" } } :=
  ⟨by simp, fun j =>
    usuarioAvanza_set (usuarioAvanza_activo (m.usuarios.getD i default)) j, Nat.le_refl _⟩

lemma pasoInteraccion_avanza (t : Tape) :
    ∀ (p : ModeloViralizacion × Nat) (i : Nat), Avanza p.1 (pasoInteraccion t p i).1 := by
  intro p i
  simp only [pasoInteraccion]
  split
  · exact avanza_trans (avanza_interaccion t p.1 i p.2)
      (avanza_trans (avanza_propagacion t _ i _) (avanza_set_activo _ i))
  · exact avanza_interaccion t p.1 i p.2

lemma avanza_interacciones (t : Tape) (m : ModeloViralizacion) (ix : Nat) :
    Avanza m (faseInteracciones t m ix).1 := by
  simp only [faseInteracciones]
  exact modelo_foldl_avanza _ (pasoInteraccion_avanza t) (conscientesIdx m.usuarios) (m, ix)

lemma avanza_registrar (m : ModeloViralizacion) (a c : Nat) :
    Avanza m (registrar_metricas m a c) :=
  ⟨rfl, fun _ => usuarioAvanza_refl _, Nat.le_refl _⟩

lemma avanza_paso_tiempo (t : Tape) (tiempo : Nat) (m : ModeloViralizacion) (ix : Nat) :
    Avanza m (paso_tiempo t tiempo m ix).1 := by
  simp only [paso_tiempo]
  have h1 : Avanza m { m with tiempo_actual := tiempo, chatbot := m.chatbot.actualizar_capacidad (contarEstado m.usuarios "activo") } :=
    ⟨rfl, fun _ => usuarioAvanza_refl _, Nat.le_refl _⟩
  split
  · exact avanza_trans h1 (avanza_trans (avanza_interacciones t _ _)
      (avanza_trans (avanza_decaimiento t _ _)
        (avanza_trans (avanza_red t _ _ _) (avanza_registrar _ _ _))))
  · exact avanza_trans h1 (avanza_trans (avanza_interacciones t _ _)
      (avanza_trans (avanza_decaimiento t _ _) (avanza_registrar _ _ _)))

lemma avanza_correr_pasos (t : Tape) :
    ∀ (k tiempo : Nat) (m : ModeloViralizacion) (ix : Nat),
      Avanza m (correr_pasos t k tiempo m ix).1 := by
  intro k
  induction k with
  | zero => intro tiempo m ix; exact avanza_refl m
  | succ k ih =>
      intro tiempo m ix
      exact avanza_trans (avanza_paso_tiempo t tiempo m ix) (ih _ _ _)

lemma usuarios_seed_avanza (inic : List Nat) (us : List Usuario) :
    (inic.foldl (fun us i => us.set i { us.getD i default with estado := "consciente" })
        us).length = us.length ∧
    ∀ j, UsuarioAvanza (us.getD j default)
      ((inic.foldl (fun us i =>
          us.set i { us.getD i default with estado := "consciente" }) us).getD j default) := by
  induction inic generalizing us with
  | nil => exact ⟨rfl, fun _ => usuarioAvanza_refl _⟩
  | cons a L ih =>
      rw [List.foldl_cons]
      obtain ⟨hl, hp⟩ := ih (us.set a { us.getD a default with estado := "consciente" })
      refine ⟨hl.trans (by simp), fun j => usuarioAvanza_trans ?_ (hp j)⟩
      exact usuarioAvanza_set (usuarioAvanza_consciente (us.getD a default)) j

lemma avanza_ejecutar (t : Tape) (m : ModeloViralizacion) (ix : Nat) :
    Avanza m (ejecutar_simulacion t m ix).1 := by
  simp only [ejecutar_simulacion]
  have hseed : Avanza m { m with usuarios := ((sampleTape t.nat (min 10 m.usuarios.length) (List.range m.usuarios.length) ix).1.foldl (fun us i => us.set i { us.getD i default with estado := "consciente" }) m.usuarios) } :=
    ⟨(usuarios_seed_avanza _ _).1, (usuarios_seed_avanza _ _).2, Nat.le_refl _⟩
  split
  · exact avanza_trans hseed (avanza_correr_pasos t _ 0 _ _)
  · split
    · exact avanza_trans hseed (avanza_trans (avanza_interaccion t _ _ _)
        (avanza_trans (avanza_propagacion t _ _ _)
          (avanza_trans (avanza_set_activo _ _) (avanza_correr_pasos t _ 0 _ _))))
    · exact avanza_trans hseed (avanza_trans (avanza_interaccion t _ _ _)
        (avanza_correr_pasos t _ 0 _ _))

/-! ## History preservation: runs only append to metrics and events -/

def Extiende {α : Type} (l l' : List α) : Prop := ∃ s, l' = l ++ s

lemma extiende_refl {α : Type} (l : List α) : Extiende l l := ⟨[], by simp⟩

lemma extiende_trans {α : Type} {a b c : List α}
    (h1 : Extiende a b) (h2 : Extiende b c) : Extiende a c := by
  obtain ⟨s1, h1⟩ := h1
  obtain ⟨s2, h2⟩ := h2
  exact ⟨s1 ++ s2, by rw [h2, h1, List.append_assoc]⟩

lemma extiende_append {α : Type} (l s : List α) : Extiende l (l ++ s) := ⟨s, rfl⟩

/-- A run step never drops or rewrites what the metric series and the
event log already contain: it can only append. -/
def ConservaHistoria (m m' : ModeloViralizacion) : Prop :=
  Extiende m.metricas.usuarios_activos m'.metricas.usuarios_activos ∧
  Extiende m.metricas.usuarios_conscientes m'.metricas.usuarios_conscientes ∧
  Extiende m.metricas.carga_sistema m'.metricas.carga_sistema ∧
  Extiende m.metricas.errores_generados m'.metricas.errores_generados ∧
  Extiende m.metricas.tiempo_respuesta m'.metricas.tiempo_respuesta ∧
  Extiende m.metricas.percepcion_publica m'.metricas.percepcion_publica ∧
  Extiende m.eventos_viralizacion m'.eventos_viralizacion

lemma conserva_intra (m m' : ModeloViralizacion) (h1 : m'.metricas = m.metricas)
    (h2 : m'.eventos_viralizacion = m.eventos_viralizacion) : ConservaHistoria m m' := by
  rw [ConservaHistoria, h1, h2]
  exact ⟨extiende_refl _, extiende_refl _, extiende_refl _, extiende_refl _,
    extiende_refl _, extiende_refl _, extiende_refl _⟩

lemma conserva_trans {m1 m2 m3 : ModeloViralizacion}
    (h1 : ConservaHistoria m1 m2) (h2 : ConservaHistoria m2 m3) : ConservaHistoria m1 m3 :=
  ⟨extiende_trans h1.1 h2.1, extiende_trans h1.2.1 h2.2.1,
   extiende_trans h1.2.2.1 h2.2.2.1, extiende_trans h1.2.2.2.1 h2.2.2.2.1,
   extiende_trans h1.2.2.2.2.1 h2.2.2.2.2.1,
   extiende_trans h1.2.2.2.2.2.1 h2.2.2.2.2.2.1,
   extiende_trans h1.2.2.2.2.2.2 h2.2.2.2.2.2.2⟩

lemma eventos_foldl_extiende {α β : Type} (f : β × List Evento → α → β × List Evento)
    (hf : ∀ p a, Extiende p.2 (f p a).2) :
    ∀ (L : List α) (p : β × List Evento), Extiende p.2 (L.foldl f p).2 := by
  intro L
  induction L with
  | nil => intro p; exact extiende_refl _
  | cons a L ih =>
      intro p
      rw [List.foldl_cons]
      exact extiende_trans (hf p a) (ih (f p a))

lemma modelo_foldl_conserva {α : Type}
    (f : ModeloViralizacion × Nat → α → ModeloViralizacion × Nat)
    (hf : ∀ p a, ConservaHistoria p.1 (f p a).1) :
    ∀ (L : List α) (p : ModeloViralizacion × Nat), ConservaHistoria p.1 (L.foldl f p).1 := by
  intro L
  induction L with
  | nil => intro p; exact conserva_intra _ _ rfl rfl
  | cons a L ih =>
      intro p
      rw [List.foldl_cons]
      exact conserva_trans (hf p a) (ih (f p a))

lemma conserva_interaccion (t : Tape) (m : ModeloViralizacion) (i ix : Nat) :
    ConservaHistoria m (simular_interaccion t m i ix).2.1 := by
  simp only [simular_interaccion]
  split_ifs with h1 h2
  · exact conserva_intra _ _ rfl rfl
  · exact conserva_intra _ _ rfl rfl
  · exact conserva_intra _ _ rfl rfl

lemma conserva_propagacion (t : Tape) (m : ModeloViralizacion) (s ix : Nat) :
    ConservaHistoria m (simular_propagacion t m s ix).1 := by
  simp only [simular_propagacion, marcarConscientes]
  refine ⟨extiende_refl _, extiende_refl _, extiende_refl _, extiende_refl _,
    extiende_refl _, extiende_refl _, ?_⟩
  exact eventos_foldl_extiende _ (fun p a => extiende_append _ _) _ _

lemma conserva_decaimiento (t : Tape) (m : ModeloViralizacion) (ix : Nat) :
    ConservaHistoria m (faseDecaimiento t m ix).1 :=
  conserva_intra _ _ rfl rfl

lemma conserva_red (t : Tape) (m : ModeloViralizacion) (k ix : Nat) :
    ConservaHistoria m (faseRed t m k ix).1 := by
  simp only [faseRed]
  split
  · exact conserva_intra _ _ rfl rfl
  · exact conserva_intra _ _ rfl rfl

lemma conserva_registrar (m : ModeloViralizacion) (a c : Nat) :
    ConservaHistoria m (registrar_metricas m a c) :=
  ⟨extiende_append _ _, extiende_append _ _, extiende_append _ _, extiende_append _ _,
   extiende_append _ _, extiende_append _ _, extiende_refl _⟩

lemma conserva_paso_interaccion (t : Tape) :
    ∀ (p : ModeloViralizacion × Nat) (i : Nat),
      ConservaHistoria p.1 (pasoInteraccion t p i).1 := by
  intro p i
  simp only [pasoInteraccion]
  split
  · exact conserva_trans (conserva_interaccion t p.1 i p.2)
      (conserva_trans (conserva_propagacion t _ i _) (conserva_intra _ _ rfl rfl))
  · exact conserva_interaccion t p.1 i p.2

lemma conserva_interacciones (t : Tape) (m : ModeloViralizacion) (ix : Nat) :
    ConservaHistoria m (faseInteracciones t m ix).1 := by
  simp only [faseInteracciones]
  exact modelo_foldl_conserva _ (conserva_paso_interaccion t) (conscientesIdx m.usuarios) (m, ix)

lemma conserva_paso_tiempo (t : Tape) (tiempo : Nat) (m : ModeloViralizacion) (ix : Nat) :
    ConservaHistoria m (paso_tiempo t tiempo m ix).1 := by
  simp only [paso_tiempo]
  have h1 : ConservaHistoria m { m with tiempo_actual := tiempo, chatbot := m.chatbot.actualizar_capacidad (contarEstado m.usuarios "activo") } :=
    conserva_intra _ _ rfl rfl
  split
  · exact conserva_trans h1 (conserva_trans (conserva_interacciones t _ _)
      (conserva_trans (conserva_decaimiento t _ _)
        (conserva_trans (conserva_red t _ _ _) (conserva_registrar _ _ _))))
  · exact conserva_trans h1 (conserva_trans (conserva_interacciones t _ _)
      (conserva_trans (conserva_decaimiento t _ _) (conserva_registrar _ _ _)))

lemma conserva_correr_pasos (t : Tape) :
    ∀ (k tiempo : Nat) (m : ModeloViralizacion) (ix : Nat),
      ConservaHistoria m (correr_pasos t k tiempo m ix).1 := by
  intro k
  induction k with
  | zero => intro tiempo m ix; exact conserva_intra _ _ rfl rfl
  | succ k ih =>
      intro tiempo m ix
      exact conserva_trans (conserva_paso_tiempo t tiempo m ix) (ih _ _ _)

lemma conserva_ejecutar (t : Tape) (m : ModeloViralizacion) (ix : Nat) :
    ConservaHistoria m (ejecutar_simulacion t m ix).1 := by
  simp only [ejecutar_simulacion]
  have hseed : ConservaHistoria m { m with usuarios := ((sampleTape t.nat (min 10 m.usuarios.length) (List.range m.usuarios.length) ix).1.foldl (fun us i => us.set i { us.getD i default with estado := "consciente" }) m.usuarios) } :=
    conserva_intra _ _ rfl rfl
  split
  · exact conserva_trans hseed (conserva_correr_pasos t _ 0 _ _)
  · split
    · exact conserva_trans hseed (conserva_trans (conserva_interaccion t _ _ _)
        (conserva_trans (conserva_propagacion t _ _ _)
          (conserva_trans (conserva_intra _ _ rfl rfl) (conserva_correr_pasos t _ 0 _ _))))
    · exact conserva_trans hseed (conserva_trans (conserva_interaccion t _ _ _)
        (conserva_correr_pasos t _ 0 _ _))

/-! ## Concrete inputs used by counterexamples and witnesses -/

/-- A constant tape: every unit draw is 1/2, every position choice 0. -/
def tapeHalf : Tape := ⟨fun _ => 1 / 2, fun _ => 0⟩

lemma estado_no_inactivo {u v : Usuario} (h : UsuarioAvanza u v)
    (hu : u.estado ≠ "inactivo") : v.estado ≠ "inactivo" := by
  rcases h.1 with he | he | he <;> rw [he]
  · exact hu
  · decide
  · decide

/-! ## Claim theorems -/

/-- C3: the spec demands fail-fast validation of the configuration
(capacity ≤ 0, population ≤ 0) at construction time, but the source
constructor performs no validation at all: constructing a model with
responder capacity 0 (and even population 0) completes normally and
yields a fully built state, with the invalid capacity stored as is. -/
theorem C3_construccion_sin_validacion :
    (ModeloViralizacion.init tapeHalf 2 0 10 0).1.chatbot.capacidad_maxima = 0 ∧
    (ModeloViralizacion.init tapeHalf 2 0 10 0).1.usuarios.length = 2 ∧
    (ModeloViralizacion.init tapeHalf 2 0 10 0).1.chatbot.probabilidad_error = 1 / 100 ∧
    (ModeloViralizacion.init tapeHalf 0 0 0 0).1.usuarios = [] ∧
    (ModeloViralizacion.init tapeHalf 0 0 0 0).1.num_usuarios = 0 := by
  with_unfolding_all decide

/-- C4: after the scenario reset every agent is dormant with zeroed
per-run counters, the responder's load / failure / response-time state is
zeroed, the metric series and event log are empty, and every agent's
identity, archetype and behavioral parameters (influence included) are
exactly their pre-reset values. -/
theorem C4_reset_estado (m : ModeloViralizacion) :
    ((resetear m).usuarios.all fun u => u.estado == "inactivo" &&
      u.tiempo_ultima_interaccion == 0 && u.interacciones_totales == 0 &&
      u.errores_reportados == 0) = true ∧
    (resetear m).chatbot.capacidad_actual = 0 ∧
    (resetear m).chatbot.errores_totales = 0 ∧
    (resetear m).chatbot.tiempo_respuesta_actual = 0 ∧
    (resetear m).metricas = ⟨[], [], [], [], [], []⟩ ∧
    (resetear m).eventos_viralizacion = [] ∧
    (resetear m).usuarios.map (fun u => (u.id, u.tipo, u.probabilidad_interaccion,
        u.probabilidad_compartir, u.influencia)) =
      m.usuarios.map (fun u => (u.id, u.tipo, u.probabilidad_interaccion,
        u.probabilidad_compartir, u.influencia)) := by
  refine ⟨?_, rfl, rfl, rfl, rfl, rfl, ?_⟩
  · simp only [resetear, List.all_eq_true]
    intro u hu
    obtain ⟨v, _, hv⟩ := List.mem_map.mp hu
    rw [← hv]
    rfl
  · simp only [resetear, List.map_map]
    exact List.map_congr_left fun u _ => rfl

/-- C5: the public-perception metric equals
`clamp (1 - 10 * (totalFailures / max 1 (Σ totalInteractions))
          - 0.3 * (currentLoad / maxCapacity)) 0 1`;
the denominator is guarded by `max 1 _`, and the result always lies in
`[0, 1]`. -/
theorem C5_percepcion_publica (m : ModeloViralizacion) :
    calcular_percepcion m =
      max 0 (min 1 (1 - 10 * ((m.chatbot.errores_totales : ℚ) /
          max 1 ((m.usuarios.map (fun u => u.interacciones_totales)).sum : ℚ)) -
        (3 / 10) * ((m.chatbot.capacidad_actual : ℚ) / (m.chatbot.capacidad_maxima : ℚ)))) ∧
    0 ≤ calcular_percepcion m ∧ calcular_percepcion m ≤ 1 := by
  refine ⟨?_, le_max_left _ _, max_le (by norm_num) (min_le_left _ _)⟩
  simp only [calcular_percepcion]
  ring_nf

/-- C6: `actualizar_capacidad` clamps the load to `min activeCount
maxCapacity` and recomputes the response time as
`base * (1 + (load/maxCapacity)^2)`; hence the load never exceeds the
capacity, and with capacity 1 the relative load is 0 or 1 and the
response time is `base` or `2 * base`. -/
theorem C6_actualizar_capacidad (c : Chatbot) (n : Nat) (h : 0 < c.capacidad_maxima) :
    (c.actualizar_capacidad n).capacidad_actual = min n c.capacidad_maxima ∧
    (c.actualizar_capacidad n).tiempo_respuesta_actual =
      c.tiempo_respuesta_base *
        (1 + (((min n c.capacidad_maxima : Nat) : ℚ) / (c.capacidad_maxima : ℚ)) ^ 2) ∧
    (c.actualizar_capacidad n).capacidad_actual ≤ c.capacidad_maxima ∧
    (c.capacidad_maxima = 1 →
      (((c.actualizar_capacidad n).capacidad_actual : ℚ) / (c.capacidad_maxima : ℚ) = 0 ∨
        ((c.actualizar_capacidad n).capacidad_actual : ℚ) / (c.capacidad_maxima : ℚ) = 1) ∧
      ((c.actualizar_capacidad n).tiempo_respuesta_actual = c.tiempo_respuesta_base ∨
        (c.actualizar_capacidad n).tiempo_respuesta_actual = 2 * c.tiempo_respuesta_base)) := by
  refine ⟨rfl, rfl, Nat.min_le_right _ _, fun h1 => ?_⟩
  simp only [Chatbot.actualizar_capacidad, h1]
  cases n with
  | zero =>
      constructor
      · left; norm_num
      · left; norm_num
  | succ k =>
      have hmin : min (k + 1) 1 = 1 := Nat.min_eq_right (Nat.succ_le_succ (Nat.zero_le _))
      rw [hmin]
      constructor
      · right; norm_num
      · right; norm_num; ring

/-- C6 witness: a capacity-1 responder with base response time 5 at
active count 3. -/
def cW : Chatbot := ⟨1, 5, 1 / 100, 0, 0, 0⟩

theorem C6_actualizar_capacidad_witness :
    0 < cW.capacidad_maxima ∧
    ((cW.actualizar_capacidad 3).capacidad_actual = min 3 cW.capacidad_maxima ∧
    (cW.actualizar_capacidad 3).tiempo_respuesta_actual =
      cW.tiempo_respuesta_base *
        (1 + (((min 3 cW.capacidad_maxima : Nat) : ℚ) / (cW.capacidad_maxima : ℚ)) ^ 2) ∧
    (cW.actualizar_capacidad 3).capacidad_actual ≤ cW.capacidad_maxima ∧
    (cW.capacidad_maxima = 1 →
      (((cW.actualizar_capacidad 3).capacidad_actual : ℚ) / (cW.capacidad_maxima : ℚ) = 0 ∨
        ((cW.actualizar_capacidad 3).capacidad_actual : ℚ) / (cW.capacidad_maxima : ℚ) = 1) ∧
      ((cW.actualizar_capacidad 3).tiempo_respuesta_actual = cW.tiempo_respuesta_base ∨
        (cW.actualizar_capacidad 3).tiempo_respuesta_actual = 2 * cW.tiempo_respuesta_base))) :=
  ⟨by decide, C6_actualizar_capacidad cW 3 (by decide)⟩

/-- C9: within a run no step ever sends an agent that is `consciente` or
`activo` back to `inactivo`: both a whole tick and a whole simulation run
keep every non-dormant agent non-dormant (only `resetear` re-creates
dormancy). -/
theorem C9_sin_retorno_a_inactivo (t : Tape) (tiempo : Nat) (m : ModeloViralizacion)
    (ix i : Nat) (h : (m.usuarios.getD i default).estado ≠ "inactivo") :
    ((paso_tiempo t tiempo m ix).1.usuarios.getD i default).estado ≠ "inactivo" ∧
    ((ejecutar_simulacion t m ix).1.usuarios.getD i default).estado ≠ "inactivo" :=
  ⟨estado_no_inactivo ((avanza_paso_tiempo t tiempo m ix).2.1 i) h,
   estado_no_inactivo ((avanza_ejecutar t m ix).2.1 i) h⟩

/-- C9 witness: a one-agent model whose agent starts `consciente`. -/
def mW9 : ModeloViralizacion :=
  ⟨1, 1, 0, ⟨1, 1, 1 / 100, 0, 0, 0⟩,
   [⟨0, "normal", 0, 0, 1, "consciente", 0, 0, 0⟩], ⟨[], [], [], [], [], []⟩, []⟩

theorem C9_sin_retorno_a_inactivo_witness :
    ((paso_tiempo tapeHalf 3 mW9 0).1.usuarios.getD 0 default).estado ≠ "inactivo" ∧
    ((ejecutar_simulacion tapeHalf mW9 0).1.usuarios.getD 0 default).estado ≠ "inactivo" :=
  C9_sin_retorno_a_inactivo tapeHalf 3 mW9 0 0 (by decide)

/-- C10: the failure counter is only ever written by the driver: one
interaction increments `errores_totales` by exactly one when and only
when it reports a failure; propagation, decay and the network phase
leave the responder untouched; `generar_error` is the pure predicate
`draw < failureProbability`; and the counter is monotonically
non-decreasing across a tick and across any number of ticks. -/
theorem C10_errores_totales (t : Tape) (m : ModeloViralizacion) (c : Chatbot) (r : ℚ)
    (i s k tiempo ix : Nat) :
    ((simular_interaccion t m i ix).2.1.chatbot.errores_totales =
      m.chatbot.errores_totales + (if (simular_interaccion t m i ix).1 then 1 else 0)) ∧
    (simular_propagacion t m s ix).1.chatbot = m.chatbot ∧
    (faseDecaimiento t m ix).1.chatbot = m.chatbot ∧
    (faseRed t m k ix).1.chatbot = m.chatbot ∧
    (c.generar_error r = true ↔ r < c.probabilidad_error) ∧
    m.chatbot.errores_totales ≤ (paso_tiempo t tiempo m ix).1.chatbot.errores_totales ∧
    m.chatbot.errores_totales ≤ (correr_pasos t k tiempo m ix).1.chatbot.errores_totales := by
  refine ⟨?_, rfl, rfl, ?_, ?_, (avanza_paso_tiempo t tiempo m ix).2.2,
    (avanza_correr_pasos t k tiempo m ix).2.2⟩
  · simp only [simular_interaccion]
    split_ifs <;> simp_all
  · simp only [faseRed]
    split <;> rfl
  · simp [Chatbot.generar_error]

/-! ## Influence bookkeeping across scenarios -/

lemma influencia_resetear (m : ModeloViralizacion) (i : Nat) :
    ((resetear m).usuarios.getD i default).influencia =
      (m.usuarios.getD i default).influencia := by
  simp only [resetear]
  by_cases h : i < m.usuarios.length
  · rw [getD_map_lt _ _ _ default _ h]
  · rw [getD_map_ge _ _ _ _ (Nat.le_of_not_lt h)]
    rw [List.getD_eq_getElem?_getD, List.getElem?_eq_none (Nat.le_of_not_lt h)]
    rfl

lemma influencia_configurar (m : ModeloViralizacion) (pe mult : ℚ) (i : Nat) :
    ((configurar m pe mult).usuarios.getD i default).influencia =
      (m.usuarios.getD i default).influencia * mult := by
  simp only [configurar]
  by_cases h : i < m.usuarios.length
  · rw [getD_map_lt _ _ _ default _ h]
  · rw [getD_map_ge _ _ _ _ (Nat.le_of_not_lt h)]
    rw [List.getD_eq_getElem?_getD, List.getElem?_eq_none (Nat.le_of_not_lt h)]
    show (0 : ℚ) = 0 * mult
    rw [zero_mul]

lemma influencia_ejecutar (t : Tape) (m : ModeloViralizacion) (ix i : Nat) :
    ((ejecutar_simulacion t m ix).1.usuarios.getD i default).influencia =
      (m.usuarios.getD i default).influencia :=
  ((avanza_ejecutar t m ix).2.1 i).2.2.2.2.2

lemma influencia_analizar (t : Tape) :
    ∀ (cfgs : List (ℚ × ℚ)) (m : ModeloViralizacion) (ix i : Nat),
      ((analizar_escenarios_con t cfgs m ix).1.usuarios.getD i default).influencia =
        (m.usuarios.getD i default).influencia * (cfgs.map Prod.snd).prod := by
  intro cfgs
  induction cfgs with
  | nil => intro m ix i; simp [analizar_escenarios_con]
  | cons c cs ih =>
      intro m ix i
      have h1 : (analizar_escenarios_con t (c :: cs) m ix).1
          = (analizar_escenarios_con t cs
              (resetear (ejecutar_simulacion t (configurar m c.1 c.2) ix).1)
              (ejecutar_simulacion t (configurar m c.1 c.2) ix).2).1 := rfl
      rw [h1, ih, influencia_resetear, influencia_ejecutar, influencia_configurar,
        List.map_cons, List.prod_cons]
      ring

/-- C7: sequential scenario runs compound the influence multiplier: the
runs and resets never restore `influencia`, each scenario multiplies it
in place, so after scenarios with multipliers `m1, ..., mk` every agent's
influence equals its initial value times `m1 * ... * mk`; for the four
built-in scenarios the net factor is `0.5 * 1 * 2 * 5 = 5`. -/
theorem C7_influencia_compuesta (t : Tape) (cfgs : List (ℚ × ℚ))
    (m : ModeloViralizacion) (ix i : Nat) :
    (((analizar_escenarios_con t cfgs m ix).1.usuarios.getD i default).influencia =
      (m.usuarios.getD i default).influencia * (cfgs.map Prod.snd).prod) ∧
    (((analizar_escenarios t m ix).1.usuarios.getD i default).influencia =
      (m.usuarios.getD i default).influencia * 5) := by
  refine ⟨influencia_analizar t cfgs m ix i, ?_⟩
  have h := influencia_analizar t escenarios m ix i
  have hp : ((escenarios.map Prod.snd).prod : ℚ) = 5 := by
    norm_num [escenarios]
  rw [hp] at h
  exact h

/-- C2: a run clears nothing: `ejecutar_simulacion` only appends to the
six metric series and to the event log (so it starts from whatever agent
states, counters and history the model already holds), the scenario
configuration step changes only the failure probability and the
influences (never the metrics, events, awareness states or failure
counter), and in the scenario runner the summary of a scenario is taken
from the state produced by its run while the reset is applied only
afterwards, as the input of the remaining scenarios. -/
theorem C2_ejecucion_acumula (t : Tape) (m : ModeloViralizacion) (ix : Nat)
    (cfg : ℚ × ℚ) (cfgs : List (ℚ × ℚ)) :
    ConservaHistoria m (ejecutar_simulacion t m ix).1 ∧
    (configurar m cfg.1 cfg.2).metricas = m.metricas ∧
    (configurar m cfg.1 cfg.2).eventos_viralizacion = m.eventos_viralizacion ∧
    (configurar m cfg.1 cfg.2).usuarios.map Usuario.estado = m.usuarios.map Usuario.estado ∧
    (configurar m cfg.1 cfg.2).chatbot.errores_totales = m.chatbot.errores_totales ∧
    (analizar_escenarios_con t (cfg :: cfgs) m ix).2.2 =
      resumen (ejecutar_simulacion t (configurar m cfg.1 cfg.2) ix).1 ::
        (analizar_escenarios_con t cfgs
          (resetear (ejecutar_simulacion t (configurar m cfg.1 cfg.2) ix).1)
          (ejecutar_simulacion t (configurar m cfg.1 cfg.2) ix).2).2.2 := by
  refine ⟨conserva_ejecutar t m ix, rfl, rfl, ?_, rfl, rfl⟩
  simp only [configurar, List.map_map]
  exact List.map_congr_left fun u _ => rfl

/-! ## C1: the propagation step -/

lemma sampleTape_nil (nats : Nat → Nat) (k ix : Nat) :
    sampleTape nats k [] ix = ([], ix) := by
  cases k <;> rfl

/-- The positions selected by one propagation call (the `random.sample`
result inside `_simular_propagacion_error`). -/
def sampleSel (t : Tape) (m : ModeloViralizacion) (s ix : Nat) : List Nat :=
  (sampleTape t.nat
    (min (pyInt ((m.usuarios.getD s default).influencia *
        (m.usuarios.getD s default).probabilidad_compartir *
        uniformDraw (1 / 2) (3 / 2) (t.flt ix))).toNat
      (inactivosIdx m.usuarios).length)
    (inactivosIdx m.usuarios) (ix + 1)).1

/-- A two-agent model: agent 0 is an aware critic with influence 1 and
share probability 9/10, agent 1 is dormant.  With the constant tape the
propagation draw is exactly 1, so the spread size is
`int(1 * 9/10 * 1) = 0`, although `round(9/10 * 1) = 1`. -/
def mC1 : ModeloViralizacion :=
  ⟨2, 1, 0, ⟨10, 1, 1 / 100, 0, 0, 0⟩,
   [⟨0, "critico", 1 / 2, 9 / 10, 1, "consciente", 0, 0, 0⟩,
    ⟨1, "normal", 1 / 10, 1 / 10, 1, "inactivo", 0, 0, 0⟩],
   ⟨[], [], [], [], [], []⟩, []⟩

/-- C1 counterexample: the claim computes the spread size with `round`,
but the source truncates with `int()`: with influence 1, share
probability 9/10 and a fan-out draw of exactly 1, the claim predicts
`min (round 0.9) 1 = 1` newly aware agent, while the code marks
`int(0.9) = 0` agents — the aware count does not change. -/
theorem C1_contraejemplo_round :
    ¬ (contarEstado (simular_propagacion tapeHalf mC1 0 0).1.usuarios "consciente" =
        contarEstado mC1.usuarios "consciente" +
          min (round ((mC1.usuarios.getD 0 default).influencia *
              (mC1.usuarios.getD 0 default).probabilidad_compartir *
              uniformDraw (1 / 2) (3 / 2) (tapeHalf.flt 0))).toNat
            (inactivosIdx mC1.usuarios).length) := by
  with_unfolding_all decide

/-- C1 (amended: the spread size uses truncation `int(...)`, i.e. the
floor of the non-negative product, not `round`): one propagation step
samples exactly `min ⌊influence * shareProbability * r⌋ |dormant|`
distinct positions from the dormant pool (`r` the uniform [0.5, 1.5]
draw), marks exactly those agents `consciente` leaving every other agent
untouched, appends one event per newly affected agent tagged with the
reporter's id and archetype, and is a no-op on an empty dormant pool. -/
theorem C1_propagacion_floor (t : Tape) (m : ModeloViralizacion) (s ix : Nat)
    (h : 0 ≤ (m.usuarios.getD s default).influencia *
      (m.usuarios.getD s default).probabilidad_compartir *
      uniformDraw (1 / 2) (3 / 2) (t.flt ix)) :
    (sampleSel t m s ix).length =
      min (⌊(m.usuarios.getD s default).influencia *
          (m.usuarios.getD s default).probabilidad_compartir *
          uniformDraw (1 / 2) (3 / 2) (t.flt ix)⌋.toNat)
        (inactivosIdx m.usuarios).length ∧
    (sampleSel t m s ix).Nodup ∧
    ((sampleSel t m s ix).all fun j =>
      (m.usuarios.getD j default).estado == "inactivo") = true ∧
    (∀ j, (simular_propagacion t m s ix).1.usuarios.getD j default =
      if j ∈ sampleSel t m s ix
      then { m.usuarios.getD j default with estado := "consciente" }
      else m.usuarios.getD j default) ∧
    ((simular_propagacion t m s ix).1.eventos_viralizacion =
      m.eventos_viralizacion ++ (sampleSel t m s ix).map (fun j =>
        ⟨m.tiempo_actual, (m.usuarios.getD s default).id,
         (m.usuarios.getD j default).id, (m.usuarios.getD s default).tipo⟩)) ∧
    (inactivosIdx m.usuarios = [] →
      (simular_propagacion t m s ix).1.usuarios = m.usuarios ∧
      (simular_propagacion t m s ix).1.eventos_viralizacion = m.eventos_viralizacion) := by
  have hpy : pyInt ((m.usuarios.getD s default).influencia *
      (m.usuarios.getD s default).probabilidad_compartir *
      uniformDraw (1 / 2) (3 / 2) (t.flt ix)) =
      ⌊(m.usuarios.getD s default).influencia *
        (m.usuarios.getD s default).probabilidad_compartir *
        uniformDraw (1 / 2) (3 / 2) (t.flt ix)⌋ := by
    rw [pyInt, if_pos h]
  rw [← hpy]
  have hnod : (sampleSel t m s ix).Nodup := by
    simp only [sampleSel]
    exact sampleTape_nodup _ _ _ _ (inactivosIdx_nodup _)
  have hsub : ∀ j ∈ sampleSel t m s ix, j < m.usuarios.length := by
    intro j hj
    simp only [sampleSel] at hj
    exact (mem_inactivosIdx (sampleTape_subset _ _ _ _ _ hj)).1
  obtain ⟨hlen, hpt, hev⟩ := marcarConscientes_spec m.tiempo_actual
    (m.usuarios.getD s default).id (m.usuarios.getD s default).tipo
    (sampleSel t m s ix) m.usuarios m.eventos_viralizacion hnod hsub
  refine ⟨?_, hnod, ?_, fun j => hpt j, hev, fun hd => ?_⟩
  · simp only [sampleSel]
    rw [sampleTape_length]
    omega
  · rw [List.all_eq_true]
    intro j hj
    have hj' : j ∈ inactivosIdx m.usuarios := by
      simp only [sampleSel] at hj
      exact sampleTape_subset _ _ _ _ _ hj
    have he := (mem_inactivosIdx hj').2
    simpa using he
  · have hsel : sampleSel t m s ix = [] := by
      simp only [sampleSel, hd, sampleTape_nil]
    constructor
    · show (marcarConscientes m.tiempo_actual (m.usuarios.getD s default).id
        (m.usuarios.getD s default).tipo (sampleSel t m s ix)
        (m.usuarios, m.eventos_viralizacion)).1 = m.usuarios
      rw [hsel]
      rfl
    · show (marcarConscientes m.tiempo_actual (m.usuarios.getD s default).id
        (m.usuarios.getD s default).tipo (sampleSel t m s ix)
        (m.usuarios, m.eventos_viralizacion)).2 = m.eventos_viralizacion
      rw [hsel]
      rfl

/-- C1 witness: the amended statement applied to the concrete two-agent
model, length and pointwise parts instantiated. -/
theorem C1_propagacion_floor_witness :
    (0 ≤ (mC1.usuarios.getD 0 default).influencia *
      (mC1.usuarios.getD 0 default).probabilidad_compartir *
      uniformDraw (1 / 2) (3 / 2) (tapeHalf.flt 0)) ∧
    (sampleSel tapeHalf mC1 0 0).length =
      min (⌊(mC1.usuarios.getD 0 default).influencia *
          (mC1.usuarios.getD 0 default).probabilidad_compartir *
          uniformDraw (1 / 2) (3 / 2) (tapeHalf.flt 0)⌋.toNat)
        (inactivosIdx mC1.usuarios).length ∧
    ((simular_propagacion tapeHalf mC1 0 0).1.usuarios.getD 1 default =
      if 1 ∈ sampleSel tapeHalf mC1 0 0
      then { mC1.usuarios.getD 1 default with estado := "consciente" }
      else mC1.usuarios.getD 1 default) :=
  ⟨by with_unfolding_all decide,
   (C1_propagacion_floor tapeHalf mC1 0 0 (by with_unfolding_all decide)).1,
   (C1_propagacion_floor tapeHalf mC1 0 0 (by with_unfolding_all decide)).2.2.2.1 1⟩

/-! ## C8: the network-effect phase -/

/-- The model at the start of a tick: time stamped, responder load
updated from the snapshot count of `activo` agents. -/
def preCarga (tiempo : Nat) (m : ModeloViralizacion) : ModeloViralizacion :=
  { m with tiempo_actual := tiempo,
           chatbot := m.chatbot.actualizar_capacidad (contarEstado m.usuarios "activo") }

/-- C8: the network-effect phase fires inside a tick exactly when the
time is a positive multiple of 5, receives the `activo` count snapshot
taken at the very start of the tick (before the interaction and decay
phases ran), and then each agent still dormant at that point is promoted
to `consciente` precisely when its own fresh draw is below
`min 0.1 (activeCount/1000)`, one independent draw per dormant agent;
agents outside the dormant pool are untouched by the phase. -/
theorem C8_efecto_red (t : Tape) (tiempo : Nat) (m : ModeloViralizacion) (ix : Nat)
    (mm : ModeloViralizacion) (k ixr : Nat) :
    ((faseRed t mm k ixr).2 = ixr + (inactivosIdx mm.usuarios).length) ∧
    (∀ j, (faseRed t mm k ixr).1.usuarios.getD j default =
      if j ∈ inactivosIdx mm.usuarios ∧
        t.flt (ixr + List.indexOf j (inactivosIdx mm.usuarios)) <
          min (1 / 10 : ℚ) ((k : ℚ) / 1000)
      then { mm.usuarios.getD j default with estado := "consciente" }
      else mm.usuarios.getD j default) ∧
    ((paso_tiempo t tiempo m ix).1.usuarios =
      if 0 < tiempo ∧ tiempo % 5 = 0
      then (faseRed t
          (faseDecaimiento t (faseInteracciones t (preCarga tiempo m) ix).1
            (faseInteracciones t (preCarga tiempo m) ix).2).1
          (contarEstado m.usuarios "activo")
          (faseDecaimiento t (faseInteracciones t (preCarga tiempo m) ix).1
            (faseInteracciones t (preCarga tiempo m) ix).2).2).1.usuarios
      else (faseDecaimiento t (faseInteracciones t (preCarga tiempo m) ix).1
            (faseInteracciones t (preCarga tiempo m) ix).2).1.usuarios) := by
  have hred : ((faseRed t mm k ixr).2 = ixr + (inactivosIdx mm.usuarios).length) ∧
      (∀ j, (faseRed t mm k ixr).1.usuarios.getD j default =
        if j ∈ inactivosIdx mm.usuarios ∧
          t.flt (ixr + List.indexOf j (inactivosIdx mm.usuarios)) <
            min (1 / 10 : ℚ) ((k : ℚ) / 1000)
        then { mm.usuarios.getD j default with estado := "consciente" }
        else mm.usuarios.getD j default) := by
    simp only [faseRed]
    split
    · rename_i hE
      have hnil : inactivosIdx mm.usuarios = [] := by
        simpa using hE
      rw [hnil]
      refine ⟨by simp, fun j => ?_⟩
      simp
    · obtain ⟨hix, hlen, hpt⟩ := activarInactivos_spec t.flt
        (min (1 / 10 : ℚ) ((k : ℚ) / 1000)) (inactivosIdx mm.usuarios) mm.usuarios ixr
        (inactivosIdx_nodup _) (fun i hi => (mem_inactivosIdx hi).1)
      exact ⟨hix, fun j => hpt j⟩
  refine ⟨hred.1, hred.2, ?_⟩
  by_cases hcond : 0 < tiempo ∧ tiempo % 5 = 0
  · rw [if_pos hcond]
    simp only [paso_tiempo, if_pos hcond]
    rfl
  · rw [if_neg hcond]
    simp only [paso_tiempo, if_neg hcond]
    rfl
